import Mathlib

/-!
Shallow embedding of the route handlers of `src/main.py` (a FastAPI tutorial
application) together with the declarative validation constraints attached to
their parameters.  Python floats are modelled as exact numbers (`ℚ` for the
record fields that are only added and compared, `ℝ` for the Euclidean
distance, which needs a square root); Python ints are `Int`; optional values
are `Option`; a Python dict whose keys are statically known is a structure
whose conditionally-inserted keys are `Option` fields; the `KeyError` a dict
subscript can raise is an `Except` error.
-/

namespace FastApiDemo

/-! ### Python truthiness for the optional values the handlers test with `if` -/

/-- Python truthiness of an optional int (`if q:`): `None` and `0` are falsy. -/
def pyTruthyInt : Option Int → Bool
  | none => false
  | some n => n != 0

/-- Python truthiness of an optional float (`if item.tax:`): `None` and `0.0` are falsy. -/
def pyTruthyRat : Option ℚ → Bool
  | none => false
  | some t => t != 0

/-- Python truthiness of a string (`if q:` on a required `str`): `""` is falsy. -/
def pyTruthyStr (s : String) : Bool := s != ""

/-! ### Python list slicing, lines 57-62: `fake_items_db[skip : skip + limit]` -/

/-- Normalisation of one bound of a Python slice `l[i:j]` (step 1) over a list
of length `n`: a negative bound counts from the end, and the result is clamped
into `[0, n]`.  This is the slice semantics of the Python language reference. -/
def sliceIdx (n : Nat) (i : Int) : Nat :=
  (if i < 0 then i + n else i).toNat.min n

/-- Python `l[i : j]` (step 1). -/
def pySlice {α : Type} (l : List α) (i j : Int) : List α :=
  (l.take (sliceIdx l.length j)).drop (sliceIdx l.length i)

/-- One entry `⟨"item_name": ...⟩` of the fixture list, line 57. -/
structure DbItem where
  item_name : String
deriving DecidableEq

/-- `fake_items_db`, line 57. -/
def fake_items_db : List DbItem := [⟨"Foo"⟩, ⟨"Bar"⟩, ⟨"Baz"⟩]

/-- `read_db_item`, lines 60-62: `return fake_items_db[skip : skip + limit]`. -/
def read_db_item (skip : Int := 0) (limit : Int := 10) : List DbItem :=
  pySlice fake_items_db skip (skip + limit)

/-! ### The `ModelName` enum and `get_model`, lines 36-51 -/

/-- `ModelName`, lines 36-39: a closed three-member string enum. -/
inductive ModelName where
  | alexnet
  | resnet
  | lenet
deriving DecidableEq

/-- The `.value` string of each `ModelName` member. -/
def ModelName.value : ModelName → String
  | .alexnet => "alexnet"
  | .resnet => "resnet"
  | .lenet => "lenet"

/-- The payload `⟨"model_name": ..., "message": ...⟩` returned by `get_model`. -/
structure GetModelResult where
  model_name : ModelName
  message : String
deriving DecidableEq

/-- `get_model`, lines 42-51: branch on the enum member (identity test for
`alexnet`, `.value` comparison for `lenet`, fallback for the rest). -/
def get_model (model_name : ModelName) : GetModelResult :=
  if model_name = ModelName.alexnet then
    ⟨model_name, "Deep Learning FTW!"⟩
  else if model_name.value = "lenet" then
    ⟨model_name, "LeCNN all the images"⟩
  else
    ⟨model_name, "Have some residuals"⟩

/-! ### The `Item` body model and `create_item`, lines 95-110 -/

/-- `Item`, lines 95-99.  Python floats are modelled exactly, as rationals. -/
structure Item where
  name : String
  description : Option String := none
  price : ℚ
  tax : Option ℚ := none
deriving DecidableEq

/-- The response dict of `create_item`: `item_id` plus every field of
`item.dict()`, with `price_with_tax` and `q` keys present (`some`) only when
they were inserted by the two `if` statements. -/
structure CreateItemResult where
  item_id : Int
  name : String
  description : Option String
  price : ℚ
  tax : Option ℚ
  price_with_tax : Option ℚ
  q : Option Int
deriving DecidableEq

/-- `create_item`, lines 102-110: merge `item_id` with the body fields, add
`price_with_tax = price + tax` when `item.tax` is truthy, add `q` when `q` is
truthy. -/
def create_item (item_id : Int) (item : Item) (q : Option Int) : CreateItemResult :=
  { item_id := item_id
    name := item.name
    description := item.description
    price := item.price
    tax := item.tax
    price_with_tax := if pyTruthyRat item.tax then some (item.price + item.tax.getD 0) else none
    q := if pyTruthyInt q then q else none }

/-! ### The distance handlers, lines 116-143 -/

/-- The `meters` type alias, line 116 (a Python float, modelled as a real). -/
abbrev meters : Type := ℝ

/-- `Coordinates`, line 117: a 2-tuple of meters. -/
abbrev Coordinates : Type := meters × meters

/-- `measure_distance`, lines 122-125:
`sqrt((loc1[0] - loc2[0]) ** 2 + (loc1[1] - loc2[1]) ** 2)`. -/
noncomputable def measure_distance (loc1 loc2 : Coordinates) : meters :=
  Real.sqrt ((loc1.1 - loc2.1) ^ 2 + (loc1.2 - loc2.2) ^ 2)

/-- `Coords`, lines 134-137: the frozen dataclass record form of a coordinate. -/
structure Coords where
  x : meters
  y : meters

/-- `measure_distance2`, lines 140-143:
`sqrt((loc1.x - loc2.x) ** 2 + (loc1.y - loc2.y) ** 2)`. -/
noncomputable def measure_distance2 (loc1 loc2 : Coords) : meters :=
  Real.sqrt ((loc1.x - loc2.x) ^ 2 + (loc1.y - loc2.y) ^ 2)

/-! ### The constrained query string `validq` and `read_items`, lines 152-160 -/

/-- First character of a string lies in the character class `[A-Z]`. -/
def startsUpper (s : String) : Bool :=
  match s.data with
  | [] => false
  | c :: _ => decide ('A' ≤ c) && decide (c ≤ 'Z')

/-- Modelled from the spec: the validation layer that enforces the metadata of
`validq = Annotated[str | None, Query(min_length=3, max_length=50, regex="^[A-Z]")]`
(line 152) is the web framework, which is not part of this repository.  Per the
spec it accepts a supplied string exactly when its length is between the bounds
and it matches the anchored regex, i.e. its first character is an uppercase
letter. -/
def validq_ok (s : String) : Bool :=
  decide (3 ≤ s.length) && decide (s.length ≤ 50) && startsUpper s

/-- Acceptance of the optional parameter as a whole: an absent value always
passes (the default `None` is not validated). -/
def validq_accepts : Option String → Bool
  | none => true
  | some s => validq_ok s

/-- One `⟨"item_id": ...⟩` entry of the fixed results payload of `read_items`. -/
structure IdEntry where
  item_id : String
deriving DecidableEq

/-- The results payload of `read_items`: the fixed `items` list, plus a `q` key
(`some`) only when it was inserted. -/
structure ReadItemsResult where
  items : List IdEntry
  q : Option String
deriving DecidableEq

/-- `read_items`, lines 155-160: fixed payload, `q` added when truthy. -/
def read_items (q : Option String := none) : ReadItemsResult :=
  { items := [⟨"Foo"⟩, ⟨"Bar"⟩]
    q := if (match q with | some s => pyTruthyStr s | none => false) then q else none }

/-! ### The bounded path parameter `validID` and `read_items2`, lines 167-175 -/

/-- Modelled from the spec: the validation layer enforcing the metadata of
`validID = Annotated[int, Path(le=500, gt=1)]` (line 167) is the web framework,
which is not part of this repository.  Per the spec, `gt` is a strict lower
bound and `le` an inclusive upper bound, so an integer is accepted exactly when
`1 < n` and `n ≤ 500`. -/
def validID_ok (n : Int) : Bool :=
  decide (1 < n) && decide (n ≤ 500)

/-- The results payload of `read_items2`: `item_id`, plus a `q` key (`some`)
only when it was inserted. -/
structure ReadItems2Result where
  item_id : Int
  q : Option String
deriving DecidableEq

/-- `read_items2`, lines 170-175: `results = ⟨"item_id": item_id⟩`, then
`if q: results.update(⟨"q": q⟩)` — `q` is a required string, truthy iff
non-empty. -/
def read_items2 (item_id : Int) (q : String) : ReadItems2Result :=
  { item_id := item_id
    q := if pyTruthyStr q then some q else none }

/-! ### `create_index_weights`, lines 299-301 -/

/-- Lookup in a Python dict modelled as an association list with (at most) one
entry per key: the value at `k`, if any. -/
def dictLookup (w : List (Int × ℚ)) (k : Int) : Option ℚ :=
  (w.find? (fun p => p.1 == k)).map (fun p => p.2)

/-- `create_index_weights`, lines 299-301: `return weights[1]` — the value at
key `1`, or an unhandled `KeyError` (modelled as `Except.error`) when the key
is absent. -/
def create_index_weights (weights : List (Int × ℚ)) : Except String ℚ :=
  match dictLookup weights 1 with
  | some v => Except.ok v
  | none => Except.error "KeyError: 1"

/-! ### The GET router, registration order of lines 7-175 -/

/-- One segment of a path template: a literal, or a `⟨name⟩` parameter. -/
inductive Seg where
  | lit : String → Seg
  | param : String → Seg
deriving DecidableEq

/-- Modelled from the spec: the path matcher is the web framework's router,
which is not part of this repository.  A literal segment matches only itself; a
parameter segment matches any non-empty segment. -/
def segMatches : Seg → String → Bool
  | .lit s, t => s == t
  | .param _, t => t != ""

/-- A path template matches a request path of the same length, segmentwise. -/
def pathMatches : List Seg → List String → Bool
  | [], [] => true
  | p :: ps, t :: ts => segMatches p t && pathMatches ps ts
  | _, _ => false

/-- The GET routes of `src/main.py` in registration (decorator) order, each
path split at `/` (a trailing slash contributes a trailing empty literal).
`/users/me` (line 22) is registered before `/users/{user_id}` (line 27). -/
def getRoutes : List (List Seg × String) :=
  [ ([.lit ""], "root")
  , ([.lit "items", .param "item_id"], "read_item")
  , ([.lit "users", .lit "me"], "read_user_me")
  , ([.lit "users", .param "user_id"], "read_user")
  , ([.lit "models", .param "model_name"], "get_model")
  , ([.lit "items", .lit ""], "read_db_item")
  , ([.lit "detailedItems", .param "item_id"], "read_item_detailed")
  , ([.lit "items4", .lit ""], "read_items")
  , ([.lit "items5", .param "item_id"], "read_items2") ]

/-- Modelled from the spec: dispatch evaluates matching routes in registration
order — the first route whose template matches the request path wins. -/
def dispatchGet (segs : List String) : Option String :=
  (getRoutes.find? (fun r => pathMatches r.1 segs)).map (fun r => r.2)

/-- The payload `⟨"user_id": ...⟩` of the two `/users` handlers. -/
structure UserResult where
  user_id : String
deriving DecidableEq

/-- `read_user_me`, lines 22-24. -/
def read_user_me : UserResult := ⟨"the current user"⟩

/-- `read_user`, lines 27-29. -/
def read_user (user_id : String) : UserResult := ⟨user_id⟩

/-! ### Helper lemmas -/

/-- A Python slice of a list is never longer than the list. -/
theorem pySlice_length_le {α : Type} (l : List α) (i j : Int) :
    (pySlice l i j).length ≤ l.length := by
  simp [pySlice, List.length_drop, List.length_take]

/-- A nonempty string is Python-truthy. -/
theorem pyTruthyStr_of_ne (s : String) (h : s ≠ "") : pyTruthyStr s = true := by
  simpa [pyTruthyStr] using h

/-- A string of length at least 3 is nonempty. -/
theorem ne_empty_of_three_le_length (s : String) (h : 3 ≤ s.length) : s ≠ "" := by
  intro hs
  rw [hs] at h
  exact absurd h (by decide)

/-! ### Claim theorems -/

/-- C1: both distance handlers return the Euclidean distance
`sqrt((x1-x2)^2 + (y1-y2)^2)` of the two points, and the distance between
`(0,0)` and `(3,4)` is exactly `5`. -/
theorem c1_distance_euclidean :
    (∀ loc1 loc2 : Coordinates,
      measure_distance loc1 loc2 = Real.sqrt ((loc1.1 - loc2.1) ^ 2 + (loc1.2 - loc2.2) ^ 2)) ∧
    (∀ loc1 loc2 : Coords,
      measure_distance2 loc1 loc2 = Real.sqrt ((loc1.x - loc2.x) ^ 2 + (loc1.y - loc2.y) ^ 2)) ∧
    measure_distance (0, 0) (3, 4) = 5 ∧
    measure_distance2 ⟨0, 0⟩ ⟨3, 4⟩ = 5 := by
  refine ⟨fun _ _ => rfl, fun _ _ => rfl, ?_, ?_⟩
  · unfold measure_distance
    norm_num
    rw [show (25 : ℝ) = 5 ^ 2 by norm_num]
    exact Real.sqrt_sq (by norm_num)
  · unfold measure_distance2
    norm_num
    rw [show (25 : ℝ) = 5 ^ 2 by norm_num]
    exact Real.sqrt_sq (by norm_num)

/-- C2: `read_db_item` returns the Python slice
`fake_items_db[skip : skip + limit]` of the 3-element fixture; with
`skip = 0, limit = 10` all 3 elements come back, and `skip = 5` yields the
empty list (for every limit — no exception is possible, the function is
total). -/
theorem c2_read_db_item_slice :
    (∀ skip limit : Int, read_db_item skip limit = pySlice fake_items_db skip (skip + limit)) ∧
    fake_items_db.length = 3 ∧
    read_db_item 0 10 = fake_items_db ∧
    (∀ limit : Int, read_db_item 5 limit = []) := by
  refine ⟨fun _ _ => rfl, rfl, by decide, fun limit => ?_⟩
  have h : sliceIdx fake_items_db.length 5 = 3 := by decide
  have hlen : (fake_items_db.take (sliceIdx fake_items_db.length (5 + limit))).length ≤ 3 := by
    rw [List.length_take]
    exact le_trans (Nat.min_le_right _ _) (by decide)
  simp only [read_db_item, pySlice, h]
  exact List.drop_eq_nil_of_le hlen

/-- C3: `create_item` merges `item_id` and every body field into the result;
`price_with_tax` is present, with value `price + tax`, exactly when `tax` is
present and non-falsy, and `q` is echoed exactly when present and non-falsy. -/
theorem c3_create_item_merge (item_id : Int) (item : Item) (q : Option Int) :
    (create_item item_id item q).item_id = item_id ∧
    (create_item item_id item q).name = item.name ∧
    (create_item item_id item q).description = item.description ∧
    (create_item item_id item q).price = item.price ∧
    (create_item item_id item q).tax = item.tax ∧
    ((create_item item_id item q).price_with_tax.isSome ↔ ∃ t, item.tax = some t ∧ t ≠ 0) ∧
    (∀ t, item.tax = some t → t ≠ 0 →
      (create_item item_id item q).price_with_tax = some (item.price + t)) ∧
    ((create_item item_id item q).q.isSome ↔ ∃ n, q = some n ∧ n ≠ 0) ∧
    (∀ n, q = some n → n ≠ 0 → (create_item item_id item q).q = some n) := by
  refine ⟨rfl, rfl, rfl, rfl, rfl, ?_, ?_, ?_, ?_⟩
  · cases htax : item.tax with
    | none => simp [create_item, pyTruthyRat, htax]
    | some t => by_cases ht : t = 0 <;> simp [create_item, pyTruthyRat, htax, ht]
  · intro t htax ht
    simp [create_item, pyTruthyRat, htax, ht]
  · cases hq : q with
    | none => simp [create_item, pyTruthyInt, hq]
    | some n => by_cases hn : n = 0 <;> simp [create_item, pyTruthyInt, hq, hn]
  · intro n hq hn
    simp [create_item, pyTruthyInt, hq, hn]

/-- Witness for C3 at a concrete input: item of price 10 with tax 2 and
query value 5 yields `price_with_tax = 12` and `q = 5`. -/
theorem c3_create_item_merge_witness :
    (create_item 7 ⟨"apple", none, 10, some 2⟩ (some 5)).price_with_tax = some 12 ∧
    (create_item 7 ⟨"apple", none, 10, some 2⟩ (some 5)).q = some 5 := by
  have h := c3_create_item_merge 7 ⟨"apple", none, 10, some 2⟩ (some 5)
  constructor
  · rw [h.2.2.2.2.2.2.1 2 rfl (by norm_num)]
    norm_num
  · exact h.2.2.2.2.2.2.2.2 5 rfl (by norm_num)

/-- C4: `get_model` echoes the supplied member, and the three recognized
members yield their three pairwise distinct fixed messages (the fallback arm
serving `resnet`). -/
theorem c4_get_model_messages :
    (∀ m : ModelName, (get_model m).model_name = m) ∧
    get_model ModelName.alexnet = ⟨ModelName.alexnet, "Deep Learning FTW!"⟩ ∧
    get_model ModelName.lenet = ⟨ModelName.lenet, "LeCNN all the images"⟩ ∧
    get_model ModelName.resnet = ⟨ModelName.resnet, "Have some residuals"⟩ ∧
    (get_model ModelName.alexnet).message ≠ (get_model ModelName.lenet).message ∧
    (get_model ModelName.alexnet).message ≠ (get_model ModelName.resnet).message ∧
    (get_model ModelName.lenet).message ≠ (get_model ModelName.resnet).message := by
  refine ⟨fun m => ?_, by decide, by decide, by decide, by decide, by decide, by decide⟩
  cases m <;> rfl

/-- C5 counterexample: `2` passes the `validID` bounds, yet with the (valid,
required) empty query string the handler's truthiness test drops the `q` key,
so the payload does not include the query string. -/
theorem c5_counterexample :
    validID_ok 2 = true ∧ ¬ ((read_items2 2 "").q = some "") := by decide

/-- C5 (amended): `validID` accepts exactly the integers with `1 < n ≤ 500`
(so `1` and `501` are rejected, `2` and `500` accepted); an accepted value is
included in the results payload, and the required query string is included as
well whenever it is non-empty. -/
theorem c5_validID_bounds (n : Int) (q : String) :
    (validID_ok n = true ↔ 1 < n ∧ n ≤ 500) ∧
    validID_ok 1 = false ∧
    validID_ok 2 = true ∧
    validID_ok 500 = true ∧
    validID_ok 501 = false ∧
    (validID_ok n = true →
      (read_items2 n q).item_id = n ∧ (q ≠ "" → (read_items2 n q).q = some q)) := by
  refine ⟨by simp [validID_ok], by decide, by decide, by decide, by decide, fun _ => ⟨rfl, ?_⟩⟩
  intro hq
  simp [read_items2, pyTruthyStr_of_ne q hq]

/-- Witness for C5 at a concrete input: id `2` with query string `"Foo"` is
accepted and both values appear in the payload. -/
theorem c5_validID_bounds_witness :
    validID_ok 2 = true ∧
    (read_items2 2 "Foo").item_id = 2 ∧ (read_items2 2 "Foo").q = some "Foo" := by
  have h := (c5_validID_bounds 2 "Foo").2.2.2.2.2 (by decide)
  exact ⟨by decide, h.1, h.2 (by decide)⟩

/-- C6: the `validq` constraint accepts a present string exactly when its
length is between 3 and 50 and it starts with an uppercase letter (`"Ab"` and
`"abcdef"` rejected, `"Abcdef"` accepted, absence accepted); an accepted
present value is echoed under `q` and the fixed payload is otherwise
unchanged. -/
theorem c6_validq_constraints (s : String) :
    (validq_ok s = true ↔ 3 ≤ s.length ∧ s.length ≤ 50 ∧ startsUpper s = true) ∧
    validq_accepts none = true ∧
    validq_ok "Ab" = false ∧
    validq_ok "abcdef" = false ∧
    validq_ok "Abcdef" = true ∧
    (validq_ok s = true → (read_items (some s)).q = some s) ∧
    read_items none = ⟨[⟨"Foo"⟩, ⟨"Bar"⟩], none⟩ ∧
    (read_items (some s)).items = [⟨"Foo"⟩, ⟨"Bar"⟩] := by
  refine ⟨by simp [validq_ok, and_assoc], rfl, by decide, by decide, by decide,
    fun hs => ?_, rfl, rfl⟩
  have hlen : 3 ≤ s.length := by
    have h2 : (3 ≤ s.length ∧ s.length ≤ 50) ∧ startsUpper s = true := by
      simpa [validq_ok] using hs
    exact h2.1.1
  simp [read_items, pyTruthyStr_of_ne s (ne_empty_of_three_le_length s hlen)]

/-- Witness for C6 at a concrete input: `"Abcdef"` passes validation and is
echoed under `q`. -/
theorem c6_validq_constraints_witness :
    validq_ok "Abcdef" = true ∧ (read_items (some "Abcdef")).q = some "Abcdef" := by
  have h := c6_validq_constraints "Abcdef"
  exact ⟨h.2.2.2.2.1, h.2.2.2.2.2.1 h.2.2.2.2.1⟩

/-- C7: `create_index_weights` returns the value stored at key `1` whenever
that key is present, and fails with the (unhandled) lookup error exactly when
no entry has key `1`. -/
theorem c7_index_weights_lookup (w : List (Int × ℚ)) :
    (∀ v : ℚ, dictLookup w 1 = some v → create_index_weights w = Except.ok v) ∧
    ((∃ e, create_index_weights w = Except.error e) ↔ ∀ p ∈ w, p.1 ≠ 1) := by
  constructor
  · intro v h
    unfold create_index_weights
    rw [h]
  · constructor
    · rintro ⟨e, he⟩ p hp h1
      unfold create_index_weights at he
      cases hfind : dictLookup w 1 with
      | some v => rw [hfind] at he; cases he
      | none =>
        unfold dictLookup at hfind
        rw [Option.map_eq_none', List.find?_eq_none] at hfind
        exact absurd (by simpa using h1) (by simpa using hfind p hp)
    · intro h
      have hfind : dictLookup w 1 = none := by
        unfold dictLookup
        rw [Option.map_eq_none', List.find?_eq_none]
        intro p hp
        simpa using h p hp
      exact ⟨"KeyError: 1", by unfold create_index_weights; rw [hfind]⟩

/-- Witness for C7 at concrete inputs: a dict holding `5` at key `1` returns
`ok 5`, and the empty dict fails. -/
theorem c7_index_weights_lookup_witness :
    create_index_weights [((1 : Int), (5 : ℚ))] = Except.ok 5 ∧
    (∃ e, create_index_weights ([] : List (Int × ℚ)) = Except.error e) :=
  ⟨(c7_index_weights_lookup [(1, 5)]).1 5 rfl,
   (c7_index_weights_lookup []).2.mpr (by simp)⟩

/-- C8: under first-match-in-registration-order dispatch, a GET request to the
literal path `/users/me` reaches `read_user_me` (whose payload is the fixed
current-user marker) and is never captured by the parameterized sibling
`read_user`. -/
theorem c8_users_me_precedence :
    dispatchGet ["users", "me"] = some "read_user_me" ∧
    dispatchGet ["users", "me"] ≠ some "read_user" ∧
    read_user_me = ⟨"the current user"⟩ := by decide

/-- C9: both distance maps are symmetric, non-negative, and zero from any
point to itself. -/
theorem c9_distance_metric :
    (∀ a b : Coordinates, measure_distance a b = measure_distance b a) ∧
    (∀ a b : Coordinates, 0 ≤ measure_distance a b) ∧
    (∀ a : Coordinates, measure_distance a a = 0) ∧
    (∀ a b : Coords, measure_distance2 a b = measure_distance2 b a) ∧
    (∀ a b : Coords, 0 ≤ measure_distance2 a b) ∧
    (∀ a : Coords, measure_distance2 a a = 0) := by
  refine ⟨fun a b => ?_, fun a b => Real.sqrt_nonneg _, fun a => by simp [measure_distance],
    fun a b => ?_, fun a b => Real.sqrt_nonneg _, fun a => by simp [measure_distance2]⟩
  · unfold measure_distance
    congr 1
    ring
  · unfold measure_distance2
    congr 1
    ring

/-- C10: `read_db_item` is total over all integers — the result never exceeds
3 elements — and a negative `skip` counts from the end of the fixture:
`skip = -1, limit = 10` returns exactly the last element. -/
theorem c10_read_db_item_total :
    (∀ skip limit : Int, (read_db_item skip limit).length ≤ 3) ∧
    read_db_item (-1) 10 = [⟨"Baz"⟩] := by
  refine ⟨fun skip limit => ?_, by decide⟩
  have h := pySlice_length_le fake_items_db skip (skip + limit)
  simpa [read_db_item, fake_items_db] using h

end FastApiDemo
